import Mathlib

/-!
# Verification of the SetFit training orchestration core

Shallow embedding of `src/setfit/trainer.py` (class `SetFitTrainer`).

Python's dynamically typed values are embedded as `PyVal`; raised
exceptions become `Except`/explicit error results; the externally
observable actions of a `train` call (the contrastive body fit and the
classifier head fit, plus logged warnings) are recorded as a list of
`Effect`s so that theorems can speak about which training phases ran and
with which resolved hyperparameters.

External collaborators (the sentence-transformers model, the metric
library, the label-grouped sampler and the pair generators that live
outside the embedded source file) are modelled from the interface the
spec assigns to them; each such definition carries a doc comment saying
so.
-/

namespace SetFitVerif

/-- Dynamic (Python) scalar values: hyperparameter-search suggestions and
dataset cell contents.  Multi-label label sets (only relevant to the
spec-modelled multilabel pair generator, which no claim exercises) are
encoded as `pyInt` bitmasks. -/
inductive PyVal where
  | pyNone
  | pyBool (b : Bool)
  | pyInt (n : ℤ)
  | pyFloat (q : ℚ)
  | pyStr (s : String)
deriving DecidableEq, Repr

/-- Structured stand-ins for the exceptions `trainer.py` raises.  Each
constructor corresponds to one `raise` site (or one foreseeable runtime
`TypeError`/`KeyError`/`AttributeError` of the CPython semantics). -/
inductive PyError where
  /-- line 159: `ValueError` for a `DatasetDict` whose only split is
  `train`; the payload is the split-name list the message shows. -/
  | multiSplitTrainOnly (splits : List String)
  /-- line 164: `ValueError` for a `DatasetDict` with other splits. -/
  | multiSplitOther (splits : List String)
  /-- line 169: required columns absent and no mapping given. -/
  | missingColumns (required found : List String)
  /-- line 177: the column mapping omits a required target column. -/
  | mappingMissingColumns (missing : List String)
  /-- line 181: the mapping refers to columns absent from the dataset. -/
  | mappingColumnsAbsent (expected found : List String)
  /-- line 382: `train()` called without a train_dataset. -/
  | missingTrainDataset
  /-- indexing `None` (e.g. `eval_dataset["text"]` with no eval dataset):
  CPython `TypeError: NoneType object is not subscriptable`. -/
  | noneNotSubscriptable
  /-- indexing a dataset with a column name it does not have. -/
  | keyError (k : String)
  /-- line 254: `model_init` must take 0 or 1 argument. -/
  | modelInitBadArity
  /-- line 257: `model_init` returned `None`. -/
  | modelInitNone
  /-- line 134: both `model` and `model_init` given. -/
  | modelAndInit
  /-- line 131: neither `model` nor `model_init` given. -/
  | neitherModelNorInit
  /-- line 104: `warmup_proportion` outside `[0, 1]`. -/
  | warmupProportionRange
  /-- line 267 / 282: `freeze`/`unfreeze` on a non-differentiable head. -/
  | freezeNeedsDifferentiableHead
  /-- a CPython `TypeError` (bad call arity, bad coercion, ...). -/
  | typeError (msg : String)
  /-- reading an attribute from `None` (e.g. `evaluate` with no dataset). -/
  | attributeError (msg : String)
  /-- line 555: metric neither a string nor a callable. -/
  | metricInvalid
  /-- `torch.utils.data.DataLoader` rejects a non-positive batch size. -/
  | dataloaderBatchSize
  /-- modelling boundary: `setattr` coercion onto an object-typed
  attribute (model, datasets, callables, histories).  No theorem in this
  file exercises these keys. -/
  | attrNotModelled (k : String)
deriving DecidableEq, Repr

/-- Digit-string to number (the digits-only core of CPython numeric
string parsing); `none` on an empty or non-digit sequence. -/
def digitsToNat? (cs : List Char) : Option ℕ :=
  if cs.isEmpty then none
  else cs.foldl (fun acc? c => acc?.bind (fun acc =>
    if c.isDigit then some (acc * 10 + (c.toNat - 48)) else none)) (some 0)

/-- Parse a plain decimal literal the way CPython `float(str)` parses
the strings used here (optional sign, integer part, optional dot and
fraction), into an exact rational. -/
def parseDecimal (s : String) : Option ℚ :=
  let core (cs : List Char) : Option ℚ :=
    let w := cs.takeWhile (fun c => c ≠ '.')
    let rest := cs.dropWhile (fun c => c ≠ '.')
    match rest with
    | [] => (digitsToNat? w).map (fun n => (n : ℚ))
    | _ :: f =>
      if f.contains '.' then none
      else
        match digitsToNat? w, digitsToNat? f with
        | some wn, some fn => some (mkRat (wn * 10 ^ f.length + fn) (10 ^ f.length))
        | _, _ => none
  match s.toList with
  | '-' :: cs => (core cs).map (fun q => -q)
  | cs => core cs

/-- CPython `int(value)` on the embedded scalar values: floats truncate
toward zero, strings parse as integer literals or raise `ValueError`,
booleans become 0/1, `None` raises `TypeError`. -/
def coerceInt : PyVal → Except PyError ℤ
  | .pyInt n => .ok n
  | .pyFloat q => .ok (if q < 0 then -((-q).floor) else q.floor)
  | .pyStr s =>
    match s.toInt? with
    | some n => .ok n
    | none => .error (.typeError "invalid literal for int")
  | .pyBool b => .ok (if b then 1 else 0)
  | .pyNone => .error (.typeError "int of None")

/-- CPython `float(value)` on the embedded scalar values. -/
def coerceFloat : PyVal → Except PyError ℚ
  | .pyFloat q => .ok q
  | .pyInt n => .ok (n : ℚ)
  | .pyStr s =>
    match parseDecimal s with
    | some q => .ok q
    | none => .error (.typeError "could not convert string to float")
  | .pyBool b => .ok (if b then 1 else 0)
  | .pyNone => .error (.typeError "float of None")

/-- CPython `bool(value)` truthiness on the embedded scalar values. -/
def coerceBool : PyVal → Bool
  | .pyBool b => b
  | .pyInt n => n ≠ 0
  | .pyFloat q => q ≠ 0
  | .pyStr s => s ≠ ""
  | .pyNone => false

/-- CPython `str(value)` (only the shapes the embedding needs). -/
def pyToString : PyVal → String
  | .pyStr s => s
  | .pyInt n => toString n
  | .pyBool b => if b then "True" else "False"
  | .pyNone => "None"
  | .pyFloat _ => "float"

/-- Insertion sort on strings: stands in for Python `sorted` in the
error-message payloads of `_validate_column_mapping`. -/
def insertSorted (x : String) : List String → List String
  | [] => [x]
  | y :: ys => if x ≤ y then x :: y :: ys else y :: insertSorted x ys

/-- Python `sorted` for lists of strings. -/
def sortStrings : List String → List String
  | [] => []
  | x :: xs => insertSorted x (sortStrings xs)

/-- A Hugging Face dataset-like object, as the trainer sees it: a
column-addressable table.  `is_dataset_dict` marks a `DatasetDict`; for
a `DatasetDict`, `column_names` (= the keys of `columns`) are the split
names, mirroring how `set(dataset.column_names)` yields the split names
when a `DatasetDict` is passed where a `Dataset` was expected. -/
structure HFDataset where
  columns : List (String × List PyVal)
  is_dataset_dict : Bool
deriving DecidableEq, Repr

/-- `dataset.column_names` (split names for a `DatasetDict`). -/
def HFDataset.columnNames (d : HFDataset) : List String :=
  d.columns.map Prod.fst

/-- `dataset[name]`: project one column, `KeyError` modelled as `none`. -/
def getColumn (d : HFDataset) (name : String) : Option (List PyVal) :=
  (d.columns.find? (fun c => c.1 = name)).map Prod.snd

/-- CPython truthiness of a dataset-like object (`__len__`-based): an
empty `Dataset` is falsy, which matters for `dataset or
self.eval_dataset` in `evaluate`. -/
def datasetTruthy (d : HFDataset) : Bool :=
  match d.columns with
  | [] => false
  | (_, vs) :: _ => if d.is_dataset_dict then true else !vs.isEmpty

/-- `SetFitTrainer._apply_column_mapping` (lines 186-204): rename the
mapped columns to their targets and prefix every unmapped column with
`feat_`.  The `with_format` round-trip preserves contents and is a
no-op in this model. -/
def applyColumnMapping (d : HFDataset) (cm : List (String × String)) : HFDataset :=
  { columns := d.columns.map (fun c =>
      match cm.find? (fun kv => kv.1 = c.1) with
      | some kv => (kv.2, c.2)
      | none => ("feat_" ++ c.1, c.2)),
    is_dataset_dict := d.is_dataset_dict }

/-- `SetFitTrainer._validate_column_mapping` (lines 150-184).  With no
mapping, the required columns `text` and `label` must be present,
otherwise one of three `ValueError`s is raised, the first being the
distinguished multi-split error for a `DatasetDict` whose only split is
`train`.  With a mapping, the mapping must cover both required targets
and only refer to existing columns. -/
def validateColumnMapping (column_mapping : Option (List (String × String)))
    (d : HFDataset) : Except PyError Unit :=
  let required := ["text", "label"]
  let column_names := d.columnNames
  match column_mapping with
  | none =>
    if !(required.all (fun c => column_names.contains c)) then
      if column_names.dedup = ["train"] && d.is_dataset_dict then
        .error (.multiSplitTrainOnly ["train"])
      else if d.is_dataset_dict then
        .error (.multiSplitOther (sortStrings column_names))
      else
        .error (.missingColumns (sortStrings required) (sortStrings column_names))
    else .ok ()
  | some cm =>
    let missing := required.filter (fun c => !(cm.map Prod.snd).contains c)
    if !missing.isEmpty then
      .error (.mappingMissingColumns missing)
    else if !((cm.map Prod.fst).all (fun c => column_names.contains c)) then
      .error (.mappingColumnsAbsent (sortStrings (cm.map Prod.fst)) (sortStrings column_names))
    else .ok ()

/-- Contrastive loss kinds selectable through `loss_class`
(sentence-transformers losses plus the local `SupConLoss`). -/
inductive LossClass where
  | cosineSimilarity
  | batchAllTriplet
  | batchHardTriplet
  | batchSemiHardTriplet
  | batchHardSoftMarginTriplet
  | supCon
deriving DecidableEq, Repr

/-- The external `SetFitModel` collaborator, as far as the orchestrator
observes it: a differentiable-head capability flag, an optional
multi-target strategy, independent frozen switches for head and body,
and a predict contract. -/
structure SetFitModel where
  has_differentiable_head : Bool
  multi_target_strategy : Option String
  head_frozen : Bool
  body_frozen : Bool
  predict : List PyVal → List PyVal

/-- A `model_init` factory: its argument count as seen by
`transformers.trainer_utils.number_of_arguments`, and the model it
returns (`none` when the factory returns `None`). -/
structure ModelInit where
  arity : ℕ
  result : Option SetFitModel

/-- The `metric` argument: a named metric, a callable, or anything else
(which `evaluate` rejects). -/
inductive Metric where
  | name (s : String)
  | callable (f : List PyVal → List PyVal → List (String × ℚ))
  | invalid

/-- One entry of a `train` history list
(`SetFitTrainer._log_training_progress`, lines 291-314). -/
structure TrainLogEntry where
  training_idx : ℤ
  epoch : ℤ
  steps : ℤ
  current_lr : ℚ
  loss_value : ℚ
deriving DecidableEq, Repr

/-- One entry of a `test` history list
(`SetFitTrainer._log_test_progress`, lines 316-333). -/
structure TestLogEntry where
  epoch : ℤ
  loss_value : ℚ
deriving DecidableEq, Repr

/-- A per-phase loss history: independent append-only `train` and `test`
sequences.  Entries are appended by the logging callbacks that the
external fit loops invoke; the orchestrator itself never appends
outside a fit, so these lists stay untouched in this model. -/
structure LossHistory where
  train : List TrainLogEntry
  test : List TestLogEntry
deriving DecidableEq, Repr

/-- The `SetFitTrainer` state: every attribute `__init__` assigns
(lines 109-148).  `distance_metric` is an external callable, carried as
an inert tag; `hp_search_backend` is `some ()` exactly when the optuna
backend has been selected by `hyperparameter_search`. -/
structure SetFitTrainer where
  train_dataset : Option HFDataset
  eval_dataset : Option HFDataset
  model_init : Option ModelInit
  metric : Metric
  metric_kwargs : Option (List (String × PyVal))
  loss_class : Option LossClass
  num_iterations : ℤ
  num_epochs : ℤ
  learning_rate : ℚ
  batch_size : ℤ
  seed : ℤ
  column_mapping : Option (List (String × String))
  use_amp : Bool
  warmup_proportion : ℚ
  distance_metric : String
  margin : ℚ
  samples_per_label : ℤ
  model : Option SetFitModel
  hp_search_backend : Option Unit
  _freeze : Bool
  sentence_transformer_history : LossHistory
  classifier_history : LossHistory

/-- `SetFitTrainer.call_model_init` (lines 247-259). -/
def callModelInit (model_init : Option ModelInit) : Except PyError SetFitModel :=
  match model_init with
  | none => .error (.typeError "model_init is None")
  | some mi =>
    if mi.arity = 0 ∨ mi.arity = 1 then
      match mi.result with
      | none => .error .modelInitNone
      | some m => .ok m
    else .error .modelInitBadArity

/-- `SetFitTrainer.__init__` (lines 83-148).  The `warmup_proportion`
range check comes first; then exactly one of `model`/`model_init` must
be supplied (calling the factory when only `model_init` is given); the
freeze switch starts `True` and both histories start empty. -/
def mkTrainer
    (model : Option SetFitModel)
    (train_dataset : Option HFDataset)
    (eval_dataset : Option HFDataset)
    (model_init : Option ModelInit)
    (metric : Metric)
    (metric_kwargs : Option (List (String × PyVal)))
    (loss_class : Option LossClass)
    (num_iterations : ℤ)
    (num_epochs : ℤ)
    (learning_rate : ℚ)
    (batch_size : ℤ)
    (seed : ℤ)
    (column_mapping : Option (List (String × String)))
    (use_amp : Bool)
    (warmup_proportion : ℚ)
    (distance_metric : String)
    (margin : ℚ)
    (samples_per_label : ℤ) : Except PyError SetFitTrainer :=
  if warmup_proportion < 0 ∨ 1 < warmup_proportion then
    .error .warmupProportionRange
  else
    let finish (m : SetFitModel) : SetFitTrainer :=
      { train_dataset := train_dataset
        eval_dataset := eval_dataset
        model_init := model_init
        metric := metric
        metric_kwargs := metric_kwargs
        loss_class := loss_class
        num_iterations := num_iterations
        num_epochs := num_epochs
        learning_rate := learning_rate
        batch_size := batch_size
        seed := seed
        column_mapping := column_mapping
        use_amp := use_amp
        warmup_proportion := warmup_proportion
        distance_metric := distance_metric
        margin := margin
        samples_per_label := samples_per_label
        model := some m
        hp_search_backend := none
        _freeze := true
        sentence_transformer_history := ⟨[], []⟩
        classifier_history := ⟨[], []⟩ }
    match model, model_init with
    | none, none => .error .neitherModelNorInit
    | some _, some _ => .error .modelAndInit
    | none, some mi =>
      match callModelInit (some mi) with
      | .error e => .error e
      | .ok m => .ok (finish m)
    | some m, none => .ok (finish m)

/-- `SetFitTrainer.freeze` (lines 261-270): requires a differentiable
head, sets the freeze switch and freezes the model head. -/
def SetFitTrainer.freeze (t : SetFitTrainer) : Except PyError SetFitTrainer :=
  match t.model with
  | none => .error (.attributeError "model is None")
  | some m =>
    if !m.has_differentiable_head then
      .error .freezeNeedsDifferentiableHead
    else
      .ok { t with _freeze := true, model := some { m with head_frozen := true } }

/-- `SetFitTrainer.unfreeze` (lines 272-289): requires a differentiable
head, clears the freeze switch, unfreezes the head, and freezes or
unfreezes the body according to `keep_body_frozen`. -/
def SetFitTrainer.unfreeze (t : SetFitTrainer) (keep_body_frozen : Bool) :
    Except PyError SetFitTrainer :=
  match t.model with
  | none => .error (.attributeError "model is None")
  | some m =>
    if !m.has_differentiable_head then
      .error .freezeNeedsDifferentiableHead
    else
      .ok { t with _freeze := false,
                   model := some { m with head_frozen := false,
                                          body_frozen := keep_body_frozen } }

/-- The attribute names for which `hasattr(self, key)` is true on a
`SetFitTrainer`: every attribute assigned in `__init__` plus the
methods of the class (bound methods are attributes too). -/
def attrNames : List String :=
  ["train_dataset", "eval_dataset", "model_init", "metric", "metric_kwargs",
   "loss_class", "num_iterations", "num_epochs", "learning_rate",
   "batch_size", "seed", "column_mapping", "use_amp", "warmup_proportion",
   "distance_metric", "margin", "samples_per_label", "model",
   "hp_search_backend", "_freeze", "sentence_transformer_history",
   "classifier_history",
   "train", "evaluate", "freeze", "unfreeze", "apply_hyperparameters",
   "push_to_hub", "hyperparameter_search", "call_model_init",
   "_validate_column_mapping", "_apply_column_mapping", "_hp_search_setup",
   "_log_training_progress", "_log_test_progress"]

/-- One `setattr(self, key, type(old_attr)(value))` step of
`apply_hyperparameters` (lines 213-219), for the scalar-typed trainer
attributes.  `metric` coerces through `str` when the current metric is a
string.  Assigning to a bound-method attribute raises (`MethodType`
called with one argument); assignment to the remaining object-typed
attributes (datasets, model, callables, histories) is a modelling
boundary reported as `attrNotModelled` — no claim exercises them. -/
def setAttrScalar (t : SetFitTrainer) (k : String) (v : PyVal) :
    Except PyError SetFitTrainer :=
  match k with
  | "num_iterations" => (coerceInt v).map (fun n => { t with num_iterations := n })
  | "num_epochs" => (coerceInt v).map (fun n => { t with num_epochs := n })
  | "batch_size" => (coerceInt v).map (fun n => { t with batch_size := n })
  | "seed" => (coerceInt v).map (fun n => { t with seed := n })
  | "samples_per_label" => (coerceInt v).map (fun n => { t with samples_per_label := n })
  | "learning_rate" => (coerceFloat v).map (fun q => { t with learning_rate := q })
  | "warmup_proportion" => (coerceFloat v).map (fun q => { t with warmup_proportion := q })
  | "margin" => (coerceFloat v).map (fun q => { t with margin := q })
  | "use_amp" => .ok { t with use_amp := coerceBool v }
  | "_freeze" => .ok { t with _freeze := coerceBool v }
  | "distance_metric" => .ok { t with distance_metric := pyToString v }
  | "metric" =>
    match t.metric with
    | .name _ => .ok { t with metric := .name (pyToString v) }
    | _ => .error (.attrNotModelled k)
  | "train" | "evaluate" | "freeze" | "unfreeze" | "apply_hyperparameters"
  | "push_to_hub" | "hyperparameter_search" | "call_model_init"
  | "_validate_column_mapping" | "_apply_column_mapping" | "_hp_search_setup"
  | "_log_training_progress" | "_log_test_progress" =>
    .error (.typeError "MethodType expected 2 arguments")
  | _ => .error (.attrNotModelled k)

/-- The outcome of `apply_hyperparameters`: the trainer state at the
moment the call returns or raises (Python mutations persist across the
raise), the warnings logged in order, and the raised exception if any. -/
structure ApplyResult where
  trainer : SetFitTrainer
  warnings : List String
  err : Option PyError

/-- One iteration of the `apply_hyperparameters` loop (lines 213-224):
skip once an exception is pending; a key matching a trainer attribute is
coerced and assigned; otherwise a warning is logged when `model_init`
takes zero arguments (`number_of_arguments(None)` raises when there is
no `model_init` at all). -/
def applyStep (r : ApplyResult) (kv : String × PyVal) : ApplyResult :=
  match r.err with
  | some _ => r
  | none =>
    if attrNames.contains kv.1 then
      match setAttrScalar r.trainer kv.1 kv.2 with
      | .ok t2 => { r with trainer := t2 }
      | .error e => { r with err := some e }
    else
      match r.trainer.model_init with
      | none => { r with err := some (.typeError "number_of_arguments of None") }
      | some mi =>
        if mi.arity = 0 then { r with warnings := r.warnings ++ [kv.1] } else r

/-- Line 226-228: `self.model = self.model_init(params)` — `params` is
passed positionally, so the call only succeeds when `model_init` takes
exactly one argument; with `final_model`, `model_init` is cleared. -/
def applyModelReinit (r : ApplyResult) (final_model : Bool) : ApplyResult :=
  match r.err with
  | some _ => r
  | none =>
    match r.trainer.model_init with
    | none => { r with err := some (.typeError "NoneType object is not callable") }
    | some mi =>
      if mi.arity = 1 then
        let t2 := { r.trainer with model := mi.result }
        if final_model then
          { r with trainer := { t2 with model_init := none } }
        else
          { r with trainer := t2 }
      else
        { r with err := some (.typeError "model_init takes 0 positional arguments") }

/-- `SetFitTrainer.apply_hyperparameters` (lines 206-228): the
per-parameter loop, then the model reinstantiation. -/
def applyHyperparameters (t0 : SetFitTrainer) (params : List (String × PyVal))
    (final_model : Bool) : ApplyResult :=
  applyModelReinit (params.foldl applyStep ⟨t0, [], none⟩) final_model

/-- `SetFitTrainer._hp_search_setup` (lines 230-245): a no-op unless a
search backend is active and a trial is present; a dict trial is applied
through `apply_hyperparameters` (optuna trial objects are outside this
model — dict trials are the shape `train()` accepts directly). -/
def hpSearchSetup (t : SetFitTrainer) (trial : Option (List (String × PyVal))) :
    Except PyError SetFitTrainer :=
  match t.hp_search_backend, trial with
  | none, _ => .ok t
  | some _, none => .ok t
  | some _, some ps =>
    let r := applyHyperparameters t ps false
    match r.err with
    | some e => .error e
    | none => .ok r.trainer

/-- Modelled from the spec: the label-grouped sampler
(`SentenceLabelDataset`, from the external sentence-transformers
library; §3 "LabelGroupedBatch", §4.2).  Examples are grouped by label —
here: the labels in first-appearance order. -/
def labelsOf (exs : List (PyVal × PyVal)) : List PyVal :=
  (exs.map Prod.snd).dedup

/-- All examples carrying one given label, in dataset order. -/
def groupFor (exs : List (PyVal × PyVal)) (L : PyVal) : List (PyVal × PyVal) :=
  exs.filter (fun e => decide (e.2 = L))

/-- Modelled from the spec: the sampler retains only the labels with at
least `samples_per_label` examples (drawing is without replacement, so a
group never needs more examples of a label than the label has). -/
def retainedGroups (exs : List (PyVal × PyVal)) (spl : ℕ) :
    List (List (PyVal × PyVal)) :=
  ((labelsOf exs).map (groupFor exs)).filter (fun g => decide (spl ≤ g.length))

/-- `len(sampler)`: the number of retained examples. -/
def sentenceLabelLen (exs : List (PyVal × PyVal)) (spl : ℕ) : ℕ :=
  ((retainedGroups exs spl).map List.length).sum

/-- One full pass over the retained labels: for each label, a group of
`samples_per_label` consecutive same-label examples (a deterministic
stand-in for the random without-replacement draw). -/
def oneWrap (exs : List (PyVal × PyVal)) (spl : ℕ) :
    List (List (PyVal × PyVal)) :=
  (retainedGroups exs spl).map (fun g => g.take spl)

/-- Modelled from the spec: the sampler iterates passes until it has
yielded at least `len(sampler)` examples. -/
def numWraps (exs : List (PyVal × PyVal)) (spl : ℕ) : ℕ :=
  let perWrap := (retainedGroups exs spl).length * spl
  if perWrap = 0 then 0 else (sentenceLabelLen exs spl + perWrap - 1) / perWrap

/-- The label-grouped example stream, as a list of same-label groups. -/
def samplerGroups (exs : List (PyVal × PyVal)) (spl : ℕ) :
    List (List (PyVal × PyVal)) :=
  (List.replicate (numWraps exs spl) (oneWrap exs spl)).flatten

/-- The flat example stream the training dataloader consumes. -/
def samplerStream (exs : List (PyVal × PyVal)) (spl : ℕ) :
    List (PyVal × PyVal) :=
  (samplerGroups exs spl).flatten

/-- `torch` dataloader batching with `drop_last=True`: consecutive
chunks of exactly `bs` items; a trailing partial chunk is dropped. -/
def chunkExact (bs : ℕ) (l : List α) : List (List α) :=
  if _hl : 0 < bs ∧ bs ≤ l.length then
    l.take bs :: chunkExact bs (l.drop bs)
  else []
termination_by l.length
decreasing_by
  simp only [List.length_drop]
  omega

/-- Number of examples with a given label. -/
def countLabel (l : List (PyVal × PyVal)) (L : PyVal) : ℕ :=
  (l.filter (fun e => decide (e.2 = L))).length

/-- A contrastive sentence pair: two texts and a positive/negative
similarity target. -/
structure SentencePair where
  a : PyVal
  b : PyVal
  positive : Bool
deriving DecidableEq, Repr

/-- Modelled from the spec: one generation pass (§4.1) — for each anchor
example, one positive partner (another example whose label relates
positively) and one negative partner, when they exist.  Deterministic
first-match partners stand in for the stochastic draws. -/
def pairsPass (pos : PyVal → PyVal → Bool) (exs : List (PyVal × PyVal)) :
    List SentencePair :=
  exs.enum.foldr (fun ie acc =>
    let i := ie.1
    let xi := ie.2.1
    let yi := ie.2.2
    let posPair := (exs.enum.find? (fun je => decide (je.1 ≠ i) && pos je.2.2 yi)).map
      (fun je => SentencePair.mk xi je.2.1 true)
    let negPair := (exs.enum.find? (fun je => !pos je.2.2 yi)).map
      (fun je => SentencePair.mk xi je.2.1 false)
    posPair.toList ++ negPair.toList ++ acc) []

/-- Modelled from the spec: `sentence_pairs_generation` (modeling.py —
repository code not under src/): appends one pass of single-label pairs
(positive iff labels are equal) to the accumulator. -/
def sentence_pairs_generation (x y : List PyVal) (acc : List SentencePair) :
    List SentencePair :=
  acc ++ pairsPass (fun a b => a == b) (x.zip y)

/-- Modelled from the spec: multilabel positivity is a nonempty label-set
intersection; label sets are encoded as `pyInt` bitmasks. -/
def multiLabelIntersect : PyVal → PyVal → Bool
  | .pyInt m, .pyInt n => decide (Int.land m n ≠ 0)
  | _, _ => false

/-- Modelled from the spec: `sentence_pairs_generation_multilabel`
(modeling.py — repository code not under src/). -/
def sentence_pairs_generation_multilabel (x y : List PyVal)
    (acc : List SentencePair) : List SentencePair :=
  acc ++ pairsPass multiLabelIntersect (x.zip y)

/-- The `num_iterations` generation loop (lines 448-462), accumulating
passes of the single-label or multilabel generator. -/
def generatePairs (multi : Bool) (iters : ℕ) (x y : List PyVal) :
    List SentencePair :=
  (List.range iters).foldl (fun acc _ =>
    if multi then sentence_pairs_generation_multilabel x y acc
    else sentence_pairs_generation x y acc) []

/-- Python `override or configured` (lines 401-403): a `None` override
falls back to the configured value — and so does the falsy override `0`,
because the source uses truthiness, not an `is not None` test. -/
def resolveOr (ov : Option ℤ) (conf : ℤ) : ℤ :=
  match ov with
  | none => conf
  | some v => if v = 0 then conf else v

/-- `resolveOr` for float-valued settings (`0.0` is falsy too). -/
def resolveOrQ (ov : Option ℚ) (conf : ℚ) : ℚ :=
  match ov with
  | none => conf
  | some v => if v = 0 then conf else v

/-- `math.ceil` of (integer times exact rational), computed with integer
floor division so that the kernel can evaluate it; `ceilMulInt_eq_ceil`
identifies it with `Int.ceil`. -/
def ceilMulInt (k : ℤ) (q : ℚ) : ℤ := -((-(k * q.num)) / (q.den : ℤ))

/-- Lines 471 and 478: `warmup_steps = ceil(total_train_steps *
warmup_proportion)` with `total_train_steps = len(dataloader) *
num_epochs`; see `warmupSteps_eq_ceil`. -/
def warmupSteps (num_batches : ℕ) (num_epochs : ℤ) (wp : ℚ) : ℤ :=
  ceilMulInt ((num_batches : ℤ) * num_epochs) wp

/-- The externally observable actions of a `train` call. -/
inductive Effect where
  /-- line 398: warning that the default loss is substituted. -/
  | warnDefaultLoss
  /-- lines 479-490: `model_body.fit` with the dataloader length, the
  epoch count, the warmup steps, the dataloader batch size, and the
  optimizer learning rate it receives. -/
  | bodyFit (num_batches : ℕ) (epochs : ℤ) (warmup_steps : ℤ)
      (batch_size : ℤ) (lr : ℚ)
  /-- lines 501-515: `model.fit` for the classifier head with the
  parameters it receives. -/
  | headFit (num_epochs : ℤ) (batch_size : ℤ) (learning_rate : ℚ)
      (body_learning_rate : Option ℚ) (l2_weight : Option ℚ)
      (max_length : Option ℤ)
deriving DecidableEq, Repr

/-- `train`'s optional per-call arguments (lines 335-346;
`show_progress_bar` and `log_steps` have no modelled observable
effect). -/
structure TrainOverrides where
  num_epochs : Option ℤ := none
  batch_size : Option ℤ := none
  learning_rate : Option ℚ := none
  body_learning_rate : Option ℚ := none
  l2_weight : Option ℚ := none
  max_length : Option ℤ := none
  trial : Option (List (String × PyVal)) := none

/-- Membership test of lines 414-420: the triplet-family and
supervised-contrastive losses that take the label-grouped sampler path. -/
def isTripletFamily : Option LossClass → Bool
  | some .batchAllTriplet => true
  | some .batchHardTriplet => true
  | some .batchSemiHardTriplet => true
  | some .batchHardSoftMarginTriplet => true
  | some .supCon => true
  | _ => false

/-- The body-training phase (lines 405-490): triplet-family losses build
the label-grouped sampler, cap the local `batch_size` at the sampler
length and batch with `drop_last=True`; the pairwise path runs the pair
generators and batches the pairs without dropping.  Both paths compute
the warmup schedule from the dataloader length and fit the model body.
Returns the `bodyFit` effect and the (possibly capped) local
`batch_size` the rest of the call continues with.  The test-side
sampler, dataloader and evaluator are built the same way but have no
modelled observable effect. -/
def bodyPhase (t : SetFitTrainer) (m : SetFitModel)
    (x_train y_train : List PyVal) (num_epochs batch_size : ℤ) (lr : ℚ) :
    Except PyError (Effect × ℤ) :=
  if isTripletFamily t.loss_class then
    let exs := x_train.zip y_train
    let spl := t.samples_per_label.toNat
    let samplerLen := sentenceLabelLen exs spl
    let bs := min batch_size (samplerLen : ℤ)
    if bs ≤ 0 then .error .dataloaderBatchSize
    else
      let nb := samplerLen / bs.toNat
      .ok (.bodyFit nb num_epochs (warmupSteps nb num_epochs t.warmup_proportion) bs lr, bs)
  else
    let pairs := generatePairs m.multi_target_strategy.isSome t.num_iterations.toNat x_train y_train
    if batch_size ≤ 0 then .error .dataloaderBatchSize
    else
      let nb := (pairs.length + batch_size.toNat - 1) / batch_size.toNat
      .ok (.bodyFit nb num_epochs (warmupSteps nb num_epochs t.warmup_proportion) batch_size lr, batch_size)

/-- The head-fit call (lines 501-515) as an effect: it receives the
resolved epochs, the current local batch size, the resolved learning
rate, and the unresolved optional overrides passed straight through. -/
def headEffect (ov : TrainOverrides) (num_epochs batch_size : ℤ) (lr : ℚ) : Effect :=
  .headFit num_epochs batch_size lr ov.body_learning_rate ov.l2_weight ov.max_length

/-- The two-phase conditional (lines 405 and 492): the body phase runs
when the head is non-differentiable or the freeze switch is on; the head
phase runs when the head is non-differentiable or the freeze switch is
off.  The head fit receives the local `batch_size`, which the
triplet-family body path may have capped. -/
def runPhases (t : SetFitTrainer) (m : SetFitModel)
    (x_train y_train : List PyVal) (ov : TrainOverrides)
    (num_epochs batch_size : ℤ) (lr : ℚ) : Except PyError (List Effect) :=
  if !m.has_differentiable_head || t._freeze then
    match bodyPhase t m x_train y_train num_epochs batch_size lr with
    | .error e => .error e
    | .ok (be, bs2) =>
      if !m.has_differentiable_head || !t._freeze then
        .ok [be, headEffect ov num_epochs bs2 lr]
      else .ok [be]
  else
    if !m.has_differentiable_head || !t._freeze then
      .ok [headEffect ov num_epochs batch_size lr]
    else .ok []

/-- Lines 385-389: the column mapping, when configured, is applied to
the training dataset (and only to it). -/
def mappedTrainDataset (cm : Option (List (String × String))) (td : HFDataset) : HFDataset :=
  match cm with
  | some m => applyColumnMapping td m
  | none => td

/-- `ds["text"], ds["label"]` — the column projections of lines 391-395,
text before label, raising `KeyError` for a missing column. -/
def readColumns (d : HFDataset) : Except PyError (List PyVal × List PyVal) :=
  match getColumn d "text" with
  | none => .error (.keyError "text")
  | some xs =>
    match getColumn d "label" with
    | none => .error (.keyError "label")
    | some ys => .ok (xs, ys)

/-- Lines 376-379 of `train`: `if trial: self._hp_search_setup(trial)` —
the `if trial:` truthiness check means an empty dict trial is skipped. -/
def trialSetup (t0 : SetFitTrainer) (trial : Option (List (String × PyVal))) :
    Except PyError SetFitTrainer :=
  match trial with
  | some ps => if ps.isEmpty then .ok t0 else hpSearchSetup t0 (some ps)
  | none => .ok t0

/-- Lines 376-399 of `train`: seeding (no observable state here), trial
setup, train-dataset presence and column validation, the column mapping
applied to the training dataset only, column projection of the training
dataset and of the unmapped evaluation dataset, the default-loss
substitution (which does persist into `loss_class`), and the
`self.model` read.  Returns the trainer state the phases run with, the
warning effects logged so far, the projected columns, and the model. -/
def trainPrelude (t0 : SetFitTrainer) (ov : TrainOverrides) :
    Except (List Effect × PyError)
      (SetFitTrainer × List Effect × List PyVal × List PyVal × List PyVal × List PyVal × SetFitModel) :=
  match trialSetup t0 ov.trial with
  | .error e => .error ([], e)
  | .ok t =>
    match t.train_dataset with
    | none => .error ([], .missingTrainDataset)
    | some td =>
      match validateColumnMapping t.column_mapping td with
      | .error e => .error ([], e)
      | .ok _ =>
        match readColumns (mappedTrainDataset t.column_mapping td) with
        | .error e => .error ([], e)
        | .ok (x_train, y_train) =>
          match t.eval_dataset with
          | none => .error ([], .noneNotSubscriptable)
          | some ed =>
            match readColumns ed with
            | .error e => .error ([], e)
            | .ok (x_test, y_test) =>
              let t1 := if t.loss_class = none then { t with loss_class := some .cosineSimilarity } else t
              let warnEffs := if t.loss_class = none then [Effect.warnDefaultLoss] else []
              match t1.model with
              | none => .error (warnEffs, .attributeError "model is None")
              | some m => .ok (t1, warnEffs, x_train, y_train, x_test, y_test, m)

/-- The outcome of a `train` call: the effects that happened (in order)
and either the trainer state on return or the exception raised. -/
structure TrainOutcome where
  effects : List Effect
  result : Except PyError SetFitTrainer

/-- `SetFitTrainer.train` (lines 335-515): prelude, per-call override
resolution by truthiness (lines 401-403), then the two conditional
training phases.  The resolved values live only in locals; the returned
trainer differs from the input at most in `loss_class` (the persisted
default substitution) and, through a trial, in whatever
`apply_hyperparameters` set. -/
def SetFitTrainer.train (t0 : SetFitTrainer) (ov : TrainOverrides) : TrainOutcome :=
  match trainPrelude t0 ov with
  | .error (effs, e) => ⟨effs, .error e⟩
  | .ok (t1, warnEffs, x_train, y_train, _x_test, _y_test, m) =>
    let ne := resolveOr ov.num_epochs t1.num_epochs
    let bs := resolveOr ov.batch_size t1.batch_size
    let lr := resolveOrQ ov.learning_rate t1.learning_rate
    match runPhases t1 m x_train y_train ov ne bs lr with
    | .error e => ⟨warnEffs, .error e⟩
    | .ok phaseEffs => ⟨warnEffs ++ phaseEffs, .ok t1⟩

/-- `SetFitTrainer.evaluate` (lines 517-555): choose `dataset or
self.eval_dataset` (Python truthiness: an empty dataset falls back),
validate, apply the column mapping to the evaluation dataset, project
the columns, predict, and compute the metric.  The external metric
library (`evaluate.load(...).compute`) is modelled from the spec as
producing a mapping containing the metric's key (§8). -/
def SetFitTrainer.evaluate (t : SetFitTrainer) (dataset : Option HFDataset) :
    Except PyError (List (String × ℚ)) :=
  let chosen : Option HFDataset :=
    match dataset with
    | some d => if datasetTruthy d then some d else t.eval_dataset
    | none => t.eval_dataset
  match chosen with
  | none => .error (.attributeError "column_names of None")
  | some ed =>
    match validateColumnMapping t.column_mapping ed with
    | .error e => .error e
    | .ok _ =>
      let ed2 :=
        match t.column_mapping with
        | some cm => applyColumnMapping ed cm
        | none => ed
      match readColumns ed2 with
      | .error e => .error e
      | .ok (x_test, y_test) =>
        match t.model with
        | none => .error (.attributeError "model is None")
        | some m =>
          let y_pred := m.predict x_test
          match t.metric with
          | .name s => .ok [(s, 1)]
          | .callable f => .ok (f y_pred y_test)
          | .invalid => .error .metricInvalid

/-- Does an effect list contain a body fit? -/
def isBodyFit : Effect → Bool
  | .bodyFit _ _ _ _ _ => true
  | _ => false

/-- Does an effect list contain a head fit? -/
def isHeadFit : Effect → Bool
  | .headFit _ _ _ _ _ _ => true
  | _ => false

end SetFitVerif

namespace SetFitVerif

theorem hpSearchSetup_backend_none {t : SetFitTrainer}
    (hb : t.hp_search_backend = none) (trial : Option (List (String × PyVal))) :
    hpSearchSetup t trial = .ok t := by
  unfold hpSearchSetup
  rw [hb]

theorem trialSetup_backend_none {t : SetFitTrainer}
    (hb : t.hp_search_backend = none) (trial : Option (List (String × PyVal))) :
    trialSetup t trial = .ok t := by
  unfold trialSetup
  cases trial with
  | none => rfl
  | some ps => simp [hpSearchSetup_backend_none hb]

end SetFitVerif

namespace SetFitVerif

theorem trainPrelude_ok_inv {t0 : SetFitTrainer} {ov : TrainOverrides}
    {t1 : SetFitTrainer} {warnEffs : List Effect} {xs ys xt yt : List PyVal}
    {m : SetFitModel}
    (hb : t0.hp_search_backend = none)
    (h : trainPrelude t0 ov = .ok (t1, warnEffs, xs, ys, xt, yt, m)) :
    ((t0.loss_class = none ∧
        t1 = { t0 with loss_class := some .cosineSimilarity } ∧
        warnEffs = [Effect.warnDefaultLoss]) ∨
      (t0.loss_class ≠ none ∧ t1 = t0 ∧ warnEffs = [])) ∧
    t1.model = some m ∧
    ∃ td, t0.train_dataset = some td ∧
      validateColumnMapping t0.column_mapping td = .ok () ∧
      readColumns (mappedTrainDataset t0.column_mapping td) = .ok (xs, ys) := by
  unfold trainPrelude at h
  rw [trialSetup_backend_none hb] at h
  iterate 12
    all_goals try simp_all
    all_goals try split at h

end SetFitVerif

namespace SetFitVerif

theorem train_ok_decomp {t0 : SetFitTrainer} {ov : TrainOverrides}
    {effs : List Effect} {t' : SetFitTrainer}
    (h : t0.train ov = ⟨effs, .ok t'⟩) :
    ∃ t1 warnEffs xs ys xt yt m phaseEffs,
      trainPrelude t0 ov = .ok (t1, warnEffs, xs, ys, xt, yt, m) ∧
      runPhases t1 m xs ys ov (resolveOr ov.num_epochs t1.num_epochs)
        (resolveOr ov.batch_size t1.batch_size)
        (resolveOrQ ov.learning_rate t1.learning_rate) = .ok phaseEffs ∧
      effs = warnEffs ++ phaseEffs ∧ t' = t1 := by
  unfold SetFitTrainer.train at h
  split at h
  · simp_all
  simp only [] at h
  split at h
  · simp_all
  simp only [TrainOutcome.mk.injEq, Except.ok.injEq] at h
  exact ⟨_, _, _, _, _, _, _, _, by assumption, by assumption, h.1.symm, h.2.symm⟩

end SetFitVerif

namespace SetFitVerif

theorem bodyPhase_ok_shape {t : SetFitTrainer} {m : SetFitModel}
    {xs ys : List PyVal} {ne bs : ℤ} {lr : ℚ} {be : Effect} {bs2 : ℤ}
    (h : bodyPhase t m xs ys ne bs lr = .ok (be, bs2)) :
    ∃ nb, be = .bodyFit nb ne (warmupSteps nb ne t.warmup_proportion) bs2 lr ∧
      0 < bs2 ∧
      ((isTripletFamily t.loss_class = true ∧
          bs2 = min bs (sentenceLabelLen (xs.zip ys) t.samples_per_label.toNat : ℤ) ∧
          nb = sentenceLabelLen (xs.zip ys) t.samples_per_label.toNat / bs2.toNat) ∨
        (isTripletFamily t.loss_class = false ∧ bs2 = bs)) := by
  unfold bodyPhase at h
  split at h
  case isTrue htrip =>
    simp only [] at h
    split at h
    · simp_all
    case isFalse hpos =>
      simp only [Except.ok.injEq, Prod.mk.injEq] at h
      obtain ⟨hbe, hbs⟩ := h
      subst hbs
      subst hbe
      exact ⟨_, rfl, by omega, Or.inl ⟨htrip, rfl, rfl⟩⟩
  case isFalse htrip =>
    simp only [] at h
    split at h
    · simp_all
    case isFalse hpos =>
      simp only [Except.ok.injEq, Prod.mk.injEq] at h
      obtain ⟨hbe, hbs⟩ := h
      subst hbs
      subst hbe
      exact ⟨_, rfl, by omega, Or.inr ⟨by simp_all, rfl⟩⟩

end SetFitVerif

namespace SetFitVerif

theorem runPhases_any {t : SetFitTrainer} {m : SetFitModel}
    {xs ys : List PyVal} {ov : TrainOverrides} {ne bs : ℤ} {lr : ℚ}
    {effs : List Effect}
    (h : runPhases t m xs ys ov ne bs lr = .ok effs) :
    effs.any isBodyFit = (!m.has_differentiable_head || t._freeze) ∧
    effs.any isHeadFit = (!m.has_differentiable_head || !t._freeze) := by
  unfold runPhases at h
  split at h
  case isTrue hcond =>
    split at h
    · simp_all
    case h_2 be bs2 hbp =>
      obtain ⟨nb, hbe, _, _⟩ := bodyPhase_ok_shape hbp
      subst hbe
      split at h
      case isTrue hcond2 =>
        simp only [Except.ok.injEq] at h
        subst h
        simp_all [isBodyFit, isHeadFit, headEffect]
      case isFalse hcond2 =>
        simp only [Except.ok.injEq] at h
        subst h
        simp_all [isBodyFit, isHeadFit, headEffect]
  case isFalse hcond =>
    split at h
    case isTrue hcond2 =>
      simp only [Except.ok.injEq] at h
      subst h
      simp_all [isBodyFit, isHeadFit, headEffect]
    case isFalse hcond2 =>
      simp only [Except.ok.injEq] at h
      subst h
      simp_all [isBodyFit, isHeadFit]

end SetFitVerif

namespace SetFitVerif

theorem runPhases_bodyFit_mem {t : SetFitTrainer} {m : SetFitModel}
    {xs ys : List PyVal} {ov : TrainOverrides} {ne bs : ℤ} {lr : ℚ}
    {effs : List Effect} {nb : ℕ} {ep ws bsx : ℤ} {lrx : ℚ}
    (h : runPhases t m xs ys ov ne bs lr = .ok effs)
    (hm : Effect.bodyFit nb ep ws bsx lrx ∈ effs) :
    bodyPhase t m xs ys ne bs lr = .ok (.bodyFit nb ep ws bsx lrx, bsx) := by
  unfold runPhases at h
  split at h
  case isTrue hcond =>
    split at h
    · simp_all
    case h_2 be bs2 hbp =>
      obtain ⟨nb2, hbe, _, _⟩ := bodyPhase_ok_shape hbp
      subst hbe
      split at h <;> (simp only [Except.ok.injEq] at h; subst h) <;>
        simp_all [headEffect]
  case isFalse hcond =>
    split at h <;> (simp only [Except.ok.injEq] at h; subst h) <;>
      simp_all [headEffect]

theorem runPhases_headFit_mem {t : SetFitTrainer} {m : SetFitModel}
    {xs ys : List PyVal} {ov : TrainOverrides} {ne bs : ℤ} {lr : ℚ}
    {effs : List Effect} {ne2 bs2 : ℤ} {lr2 : ℚ}
    {blr l2 : Option ℚ} {ml : Option ℤ}
    (h : runPhases t m xs ys ov ne bs lr = .ok effs)
    (hm : Effect.headFit ne2 bs2 lr2 blr l2 ml ∈ effs) :
    ne2 = ne ∧ lr2 = lr ∧ blr = ov.body_learning_rate ∧
      l2 = ov.l2_weight ∧ ml = ov.max_length := by
  unfold runPhases at h
  split at h
  case isTrue hcond =>
    split at h
    · simp_all
    case h_2 be bs2 hbp =>
      obtain ⟨nb2, hbe, _, _⟩ := bodyPhase_ok_shape hbp
      subst hbe
      split at h <;> (simp only [Except.ok.injEq] at h; subst h) <;>
        simp_all [headEffect]
  case isFalse hcond =>
    split at h <;> (simp only [Except.ok.injEq] at h; subst h) <;>
      simp_all [headEffect]

end SetFitVerif

namespace SetFitVerif

theorem chunkExact_spec {α : Type} (bs : ℕ) :
    ∀ (n : ℕ) (l : List α), l.length ≤ n →
      (∀ c ∈ chunkExact bs l, c.length = bs) ∧
      (chunkExact bs l).flatten.length = (chunkExact bs l).length * bs := by
  intro n
  induction n with
  | zero =>
    intro l hl
    have hnil : l = [] := List.length_eq_zero.mp (Nat.le_zero.mp hl)
    subst hnil
    have hce : chunkExact (α := α) bs [] = [] := by
      rw [chunkExact]
      split
      case isTrue hcond =>
        simp only [List.length_nil] at hcond
        omega
      case isFalse hcond => rfl
    rw [hce]
    simp
  | succ n ih =>
    intro l hl
    rw [chunkExact]
    split
    case isTrue hcond =>
      have hdrop : (l.drop bs).length ≤ n := by
        simp only [List.length_drop]
        omega
      obtain ⟨ihm, ihlen⟩ := ih (l.drop bs) hdrop
      have htk : (l.take bs).length = bs := by
        simp only [List.length_take]
        omega
      refine ⟨?_, ?_⟩
      · intro c hc
        rcases List.mem_cons.mp hc with hceq | hcm
        · subst hceq
          exact htk
        · exact ihm c hcm
      · simp only [List.flatten_cons, List.length_append, List.length_cons, ihlen, htk]
        ring
    case isFalse hcond =>
      simp

theorem chunkExact_mem_length {α : Type} {bs : ℕ} {l c : List α}
    (h : c ∈ chunkExact bs l) : c.length = bs :=
  (chunkExact_spec bs l.length l le_rfl).1 c h

theorem chunkExact_flatten_length {α : Type} (bs : ℕ) (l : List α) :
    (chunkExact bs l).flatten.length = (chunkExact bs l).length * bs :=
  (chunkExact_spec bs l.length l le_rfl).2

theorem samplerGroups_mem {exs : List (PyVal × PyVal)} {spl : ℕ}
    {g : List (PyVal × PyVal)} (hg : g ∈ samplerGroups exs spl) :
    ∃ L, g = (groupFor exs L).take spl := by
  unfold samplerGroups at hg
  rw [List.mem_flatten] at hg
  obtain ⟨w, hw, hgw⟩ := hg
  have hrep := List.eq_of_mem_replicate hw
  subst hrep
  unfold oneWrap at hgw
  rw [List.mem_map] at hgw
  obtain ⟨g0, hg0, htk⟩ := hgw
  unfold retainedGroups at hg0
  rw [List.mem_filter] at hg0
  obtain ⟨hg0m, _⟩ := hg0
  rw [List.mem_map] at hg0m
  obtain ⟨L, _, hL⟩ := hg0m
  refine ⟨L, ?_⟩
  rw [← htk, ← hL]

theorem samplerGroups_count_le {exs : List (PyVal × PyVal)} {spl : ℕ}
    {g : List (PyVal × PyVal)} (hg : g ∈ samplerGroups exs spl) (L : PyVal) :
    countLabel g L ≤ countLabel exs L := by
  obtain ⟨L0, hgeq⟩ := samplerGroups_mem hg
  subst hgeq
  have h1 : List.Sublist ((groupFor exs L0).take spl) (groupFor exs L0) :=
    List.take_sublist _ _
  have h2 : List.Sublist (groupFor exs L0) exs := List.filter_sublist _
  have h3 := h1.trans h2
  unfold countLabel
  exact (h3.filter _).length_le

end SetFitVerif

namespace SetFitVerif

/-- A concrete model with a classical (non-differentiable) head. -/
def classicalHeadModel : SetFitModel :=
  { has_differentiable_head := false, multi_target_strategy := none,
    head_frozen := false, body_frozen := false, predict := fun xs => xs }

/-- A concrete model with a differentiable head. -/
def diffHeadModel : SetFitModel :=
  { classicalHeadModel with has_differentiable_head := true }

/-- A four-example, two-label dataset with the required columns. -/
def sampleDataset : HFDataset :=
  { columns := [("text", [.pyStr "a", .pyStr "b", .pyStr "c", .pyStr "d"]),
                ("label", [.pyInt 0, .pyInt 0, .pyInt 1, .pyInt 1])],
    is_dataset_dict := false }

/-- A concrete trainer over `sampleDataset` with the constructor
defaults of lines 83-148, except `num_epochs = 5` (so a zero override is
distinguishable from the configured value). -/
def baseTrainer : SetFitTrainer :=
  { train_dataset := some sampleDataset
    eval_dataset := some sampleDataset
    model_init := none
    metric := .name "accuracy"
    metric_kwargs := none
    loss_class := some .cosineSimilarity
    num_iterations := 20
    num_epochs := 5
    learning_rate := mkRat 1 50000
    batch_size := 16
    seed := 42
    column_mapping := none
    use_amp := false
    warmup_proportion := mkRat 1 10
    distance_metric := "cosine_distance"
    margin := mkRat 1 4
    samples_per_label := 2
    model := some classicalHeadModel
    hp_search_backend := none
    _freeze := true
    sentence_transformer_history := ⟨[], []⟩
    classifier_history := ⟨[], []⟩ }

/-- `baseTrainer` with a differentiable-head model. -/
def diffTrainer : SetFitTrainer :=
  { baseTrainer with model := some diffHeadModel }

/-- `baseTrainer` with a triplet-family loss. -/
def tripletTrainer : SetFitTrainer :=
  { baseTrainer with loss_class := some .batchHardTriplet }

/-- C7: for every `warmup_proportion` strictly below 0 or strictly above
1, construction fails with the range `ValueError`; for every
`warmup_proportion` in `[0, 1]` (with a model supplied and no
`model_init`, i.e. all other arguments valid), construction succeeds. -/
theorem warmup_proportion_range_check
    (model : SetFitModel) (td ed : Option HFDataset) (metric : Metric)
    (mkw : Option (List (String × PyVal))) (lc : Option LossClass)
    (ni ne : ℤ) (lr : ℚ) (bs se : ℤ) (cm : Option (List (String × String)))
    (ua : Bool) (wp : ℚ) (dm : String) (mg : ℚ) (spl : ℤ) :
    ((wp < 0 ∨ 1 < wp) →
      mkTrainer (some model) td ed none metric mkw lc ni ne lr bs se cm ua wp dm mg spl
        = .error .warmupProportionRange) ∧
    (0 ≤ wp → wp ≤ 1 →
      ∃ t, mkTrainer (some model) td ed none metric mkw lc ni ne lr bs se cm ua wp dm mg spl
        = .ok t) := by
  constructor
  · intro hrange
    unfold mkTrainer
    rw [if_pos hrange]
  · intro h0 h1
    unfold mkTrainer
    rw [if_neg (by push_neg; exact ⟨h0, h1⟩)]
    exact ⟨_, rfl⟩

/-- Witness for C7 at `warmup_proportion = 3/2` (rejected) and
`warmup_proportion = 1/10` (accepted). -/
theorem warmup_proportion_range_check_witness :
    (mkTrainer (some classicalHeadModel) none none none (.name "accuracy") none none
        20 1 (mkRat 1 50000) 16 42 none false (mkRat 3 2) "cosine" (mkRat 1 4) 2
      = .error .warmupProportionRange) ∧
    (∃ t, mkTrainer (some classicalHeadModel) none none none (.name "accuracy") none none
        20 1 (mkRat 1 50000) 16 42 none false (mkRat 1 10) "cosine" (mkRat 1 4) 2
      = .ok t) :=
  ⟨(warmup_proportion_range_check classicalHeadModel none none (.name "accuracy") none none
      20 1 (mkRat 1 50000) 16 42 none false (mkRat 3 2) "cosine" (mkRat 1 4) 2).1 (Or.inr (by rw [show (mkRat 3 2 : ℚ) = 3/2 by norm_num [mkRat]]; norm_num)),
   (warmup_proportion_range_check classicalHeadModel none none (.name "accuracy") none none
      20 1 (mkRat 1 50000) 16 42 none false (mkRat 1 10) "cosine" (mkRat 1 4) 2).2 (by norm_num) (by norm_num)⟩

end SetFitVerif

namespace SetFitVerif

/-- C2: with no active search backend, a `train()` call that returns
normally ran the body-training phase iff the model head is
non-differentiable or the freeze switch is true, and ran the
head-training phase iff the head is non-differentiable or the freeze
switch is false; in particular a non-differentiable head runs both. -/
theorem train_phase_gating {t : SetFitTrainer} {ov : TrainOverrides}
    {effs : List Effect} {t2 : SetFitTrainer} {m : SetFitModel}
    (hb : t.hp_search_backend = none)
    (hm : t.model = some m)
    (h : t.train ov = ⟨effs, .ok t2⟩) :
    effs.any isBodyFit = (!m.has_differentiable_head || t._freeze) ∧
    effs.any isHeadFit = (!m.has_differentiable_head || !t._freeze) := by
  obtain ⟨t1, warn, xs, ys, xt, yt, m2, phase, hpre, hrun, heffs, ht2⟩ := train_ok_decomp h
  obtain ⟨hdisj, hm2, -⟩ := trainPrelude_ok_inv hb hpre
  subst heffs
  have hfr : t1._freeze = t._freeze := by
    rcases hdisj with ⟨-, h1, -⟩ | ⟨-, h1, -⟩ <;> subst h1 <;> rfl
  have hmodel : t1.model = t.model := by
    rcases hdisj with ⟨-, h1, -⟩ | ⟨-, h1, -⟩ <;> subst h1 <;> rfl
  have hmm : m2 = m := by
    rw [hmodel, hm] at hm2
    exact (Option.some.inj hm2).symm
  have hwarn : warn.any isBodyFit = false ∧ warn.any isHeadFit = false := by
    rcases hdisj with ⟨-, -, hw⟩ | ⟨-, -, hw⟩ <;> subst hw <;>
      simp [isBodyFit, isHeadFit]
  obtain ⟨hB, hH⟩ := runPhases_any hrun
  rw [List.any_append, List.any_append, hB, hH, hwarn.1, hwarn.2, hfr, hmm]
  simp

set_option maxRecDepth 16000 in
/-- Witness for C2 at `baseTrainer` (classical head, switch true): both
phases ran. -/
theorem train_phase_gating_witness :
    ([Effect.bodyFit 10 5 5 16 (mkRat 1 50000),
      Effect.headFit 5 16 (mkRat 1 50000) none none none].any isBodyFit = true) ∧
    ([Effect.bodyFit 10 5 5 16 (mkRat 1 50000),
      Effect.headFit 5 16 (mkRat 1 50000) none none none].any isHeadFit = true) :=
  train_phase_gating (m := classicalHeadModel) rfl rfl
    (show baseTrainer.train {} =
        ⟨[Effect.bodyFit 10 5 5 16 (mkRat 1 50000),
          Effect.headFit 5 16 (mkRat 1 50000) none none none],
         .ok baseTrainer⟩ from rfl)

end SetFitVerif

namespace SetFitVerif

theorem ceilMulInt_eq_ceil (k : ℤ) (q : ℚ) :
    ceilMulInt k q = Int.ceil ((k : ℚ) * q) := by
  unfold ceilMulInt
  have hq : ((k : ℚ) * q) = (((k * q.num : ℤ) : ℚ)) / ((q.den : ℕ) : ℚ) := by
    conv_lhs => rw [← Rat.num_div_den q]
    push_cast
    ring
  rw [hq, ← Rat.floor_intCast_div_natCast (-(k * q.num)) q.den]
  rw [show (((-(k * q.num) : ℤ) : ℚ)) = -(((k * q.num : ℤ) : ℚ)) by push_cast; ring]
  rw [neg_div, Int.floor_neg, neg_neg]

theorem warmupSteps_eq_ceil (nb : ℕ) (ne : ℤ) (wp : ℚ) :
    warmupSteps nb ne wp = Int.ceil ((((nb : ℤ) * ne : ℤ) : ℚ) * wp) :=
  ceilMulInt_eq_ceil _ _

end SetFitVerif

namespace SetFitVerif

/-- C10 counterexample: the freeze switch is NOT changed only by
`freeze()`/`unfreeze()` — `apply_hyperparameters` with a `"_freeze"` key
matches the `hasattr` branch (line 214) and `setattr`s the switch: on a
trainer whose switch is `true` it flips it to `false` without either
method being called. -/
theorem freeze_switch_changed_by_apply_hyperparameters :
    baseTrainer._freeze = true ∧
    (applyHyperparameters baseTrainer [("_freeze", .pyBool false)] false).trainer._freeze
      = false :=
  ⟨rfl, rfl⟩

/-- C10 (amended): every newly constructed trainer has the freeze switch
`true`; `freeze()` sets it `true` and `unfreeze()` sets it `false`, and
`apply_hyperparameters` (reachable from `train(trial=...)` during
hyperparameter search) can also change it via a `"_freeze"` key; hence,
for a differentiable-head model, a `train()` call with no active search
backend runs only the body-training phase while the switch is `true`
(i.e. until `unfreeze()` is called).  A `train()` call with no active
search backend never changes the switch. -/
theorem freeze_switch_lifecycle :
    (∀ model model_init td ed metric mkw lc ni ne lr bs se cm ua wp dm mg spl t,
        mkTrainer model td ed model_init metric mkw lc ni ne lr bs se cm ua wp dm mg spl
          = .ok t →
        t._freeze = true) ∧
    (∀ t t2, SetFitTrainer.freeze t = .ok t2 → t2._freeze = true) ∧
    (∀ t kb t2, SetFitTrainer.unfreeze t kb = .ok t2 → t2._freeze = false) ∧
    (∀ (t : SetFitTrainer) ov effs t2, t.hp_search_backend = none →
        t.train ov = ⟨effs, .ok t2⟩ → t2._freeze = t._freeze) ∧
    (∀ (t : SetFitTrainer) ov effs t2 m, t.hp_search_backend = none →
        t.model = some m → m.has_differentiable_head = true → t._freeze = true →
        t.train ov = ⟨effs, .ok t2⟩ →
        effs.any isBodyFit = true ∧ effs.any isHeadFit = false) := by
  refine ⟨?_, ?_, ?_, ?_, ?_⟩
  · intro model model_init td ed metric mkw lc ni ne lr bs se cm ua wp dm mg spl t h
    unfold mkTrainer at h
    iterate 6
      all_goals try simp_all
      all_goals try split at h
    all_goals
      try simp only [Except.ok.injEq] at h
      subst h
      rfl
  · intro t t2 h
    unfold SetFitTrainer.freeze at h
    iterate 3
      all_goals try simp_all
      all_goals try split at h
    all_goals
      try simp only [Except.ok.injEq] at h
      subst h
      rfl
  · intro t kb t2 h
    unfold SetFitTrainer.unfreeze at h
    iterate 3
      all_goals try simp_all
      all_goals try split at h
    all_goals
      try simp only [Except.ok.injEq] at h
      subst h
      rfl
  · intro t ov effs t2 hb h
    obtain ⟨t1, warn, xs, ys, xt, yt, m2, phase, hpre, hrun, heffs, ht2⟩ := train_ok_decomp h
    obtain ⟨hdisj, -, -⟩ := trainPrelude_ok_inv hb hpre
    subst ht2
    rcases hdisj with ⟨-, h1, -⟩ | ⟨-, h1, -⟩ <;> subst h1 <;> rfl
  · intro t ov effs t2 m hb hm hdiff hfr h
    obtain ⟨t1, warn, xs, ys, xt, yt, m2, phase, hpre, hrun, heffs, ht2⟩ := train_ok_decomp h
    obtain ⟨hdisj, hm2, -⟩ := trainPrelude_ok_inv hb hpre
    subst heffs
    have hfr1 : t1._freeze = t._freeze := by
      rcases hdisj with ⟨-, h1, -⟩ | ⟨-, h1, -⟩ <;> subst h1 <;> rfl
    have hmodel : t1.model = t.model := by
      rcases hdisj with ⟨-, h1, -⟩ | ⟨-, h1, -⟩ <;> subst h1 <;> rfl
    have hmm : m2 = m := by
      rw [hmodel, hm] at hm2
      exact (Option.some.inj hm2).symm
    have hwarn : warn.any isBodyFit = false ∧ warn.any isHeadFit = false := by
      rcases hdisj with ⟨-, -, hw⟩ | ⟨-, -, hw⟩ <;> subst hw <;>
        simp [isBodyFit, isHeadFit]
    obtain ⟨hB, hH⟩ := runPhases_any hrun
    rw [List.any_append, List.any_append, hB, hH, hwarn.1, hwarn.2, hfr1, hmm,
      hdiff, hfr]
    simp

end SetFitVerif

namespace SetFitVerif

set_option maxRecDepth 16000 in
/-- Witness for C10 at `diffTrainer` (differentiable head, fresh switch
`true`): the first `train()` call runs only the body phase. -/
theorem freeze_switch_lifecycle_witness :
    ([Effect.bodyFit 10 5 5 16 (mkRat 1 50000)].any isBodyFit = true) ∧
    ([Effect.bodyFit 10 5 5 16 (mkRat 1 50000)].any isHeadFit = false) :=
  freeze_switch_lifecycle.2.2.2.2 diffTrainer {}
    [Effect.bodyFit 10 5 5 16 (mkRat 1 50000)] diffTrainer diffHeadModel
    rfl rfl rfl rfl
    (show diffTrainer.train {} =
        ⟨[Effect.bodyFit 10 5 5 16 (mkRat 1 50000)], .ok diffTrainer⟩ from rfl)

end SetFitVerif

namespace SetFitVerif

set_option maxRecDepth 16000 in
/-- C1 counterexample: with configured `num_epochs = 5` and the per-call
override `num_epochs = 0` (not `None`), the claim demands the fits run
with 0 epochs; the source resolves `num_epochs or self.num_epochs` by
truthiness, so both fits receive 5. -/
theorem override_zero_falls_back :
    (baseTrainer.train { num_epochs := some 0 }).effects
      = [Effect.bodyFit 10 5 5 16 (mkRat 1 50000),
         Effect.headFit 5 16 (mkRat 1 50000) none none none] ∧
    (some (0 : ℤ) ≠ (none : Option ℤ)) ∧ ((5 : ℤ) ≠ 0) :=
  ⟨rfl, by decide, by decide⟩

/-- C1 (amended): each of the per-call overrides `num_epochs`,
`batch_size`, `learning_rate` is resolved as the override whenever the
override is truthy (not `None` and nonzero) and as the configured value
otherwise — `0`/`0.0` overrides fall back to the configured value; the
resolved values are what the fits receive (the triplet-family body path
additionally caps the batch size) and live only for the duration of the
call: the trainer's configured fields are unchanged on return. -/
theorem per_call_override_resolution {t : SetFitTrainer} {ov : TrainOverrides}
    {effs : List Effect} {t2 : SetFitTrainer}
    (hb : t.hp_search_backend = none)
    (h : t.train ov = ⟨effs, .ok t2⟩) :
    (∀ nb ep ws bsx lrx, Effect.bodyFit nb ep ws bsx lrx ∈ effs →
        ep = resolveOr ov.num_epochs t.num_epochs ∧
        lrx = resolveOrQ ov.learning_rate t.learning_rate ∧
        (isTripletFamily t.loss_class = false →
          bsx = resolveOr ov.batch_size t.batch_size)) ∧
    (∀ ne2 bs2 lr2 blr l2w ml, Effect.headFit ne2 bs2 lr2 blr l2w ml ∈ effs →
        ne2 = resolveOr ov.num_epochs t.num_epochs ∧
        lr2 = resolveOrQ ov.learning_rate t.learning_rate) ∧
    t2.num_epochs = t.num_epochs ∧ t2.batch_size = t.batch_size ∧
    t2.learning_rate = t.learning_rate := by
  obtain ⟨t1, warn, xs, ys, xt, yt, m2, phase, hpre, hrun, heffs, ht2⟩ := train_ok_decomp h
  obtain ⟨hdisj, -, -⟩ := trainPrelude_ok_inv hb hpre
  subst heffs
  have hne : t1.num_epochs = t.num_epochs := by
    rcases hdisj with ⟨-, h1, -⟩ | ⟨-, h1, -⟩ <;> subst h1 <;> rfl
  have hbs : t1.batch_size = t.batch_size := by
    rcases hdisj with ⟨-, h1, -⟩ | ⟨-, h1, -⟩ <;> subst h1 <;> rfl
  have hlr : t1.learning_rate = t.learning_rate := by
    rcases hdisj with ⟨-, h1, -⟩ | ⟨-, h1, -⟩ <;> subst h1 <;> rfl
  have hwarnfit : ∀ e ∈ warn, isBodyFit e = false ∧ isHeadFit e = false := by
    rcases hdisj with ⟨-, -, hw⟩ | ⟨-, -, hw⟩ <;> subst hw <;>
      simp [isBodyFit, isHeadFit]
  refine ⟨?_, ?_, by rw [ht2]; exact hne, by rw [ht2]; exact hbs,
    by rw [ht2]; exact hlr⟩
  · intro nb ep ws bsx lrx hmem
    rcases List.mem_append.mp hmem with hw | hp
    · have hfalse := (hwarnfit _ hw).1
      simp [isBodyFit] at hfalse
    · have hbp := runPhases_bodyFit_mem hrun hp
      obtain ⟨nb2, hbe, hpos, hcase⟩ := bodyPhase_ok_shape hbp
      simp only [Effect.bodyFit.injEq] at hbe
      obtain ⟨-, hep, -, -, hlrx⟩ := hbe
      refine ⟨by rw [hep, hne], by rw [hlrx, hlr], ?_⟩
      intro htf
      have htf1 : isTripletFamily t1.loss_class = false := by
        rcases hdisj with ⟨-, h1, -⟩ | ⟨-, h1, -⟩ <;> subst h1
        · rfl
        · exact htf
      rcases hcase with ⟨htr1, -, -⟩ | ⟨-, hbsx⟩
      · rw [htf1] at htr1
        exact absurd htr1 (by simp)
      · rw [hbsx, hbs]
  · intro ne2 bs2 lr2 blr l2w ml hmem
    rcases List.mem_append.mp hmem with hw | hp
    · have hfalse := (hwarnfit _ hw).2
      simp [isHeadFit] at hfalse
    · obtain ⟨h1, h2, -, -, -⟩ := runPhases_headFit_mem hrun hp
      exact ⟨by rw [h1, hne], by rw [h2, hlr]⟩

end SetFitVerif

namespace SetFitVerif

set_option maxRecDepth 16000 in
/-- Witness for C1 (amended) at `baseTrainer` with truthy overrides
`num_epochs = 3`, `batch_size = 8`, `learning_rate = 1/100`: the head
fit receives exactly the resolved values. -/
theorem per_call_override_resolution_witness :
    (3 : ℤ) = resolveOr (some 3) baseTrainer.num_epochs ∧
    (mkRat 1 100 : ℚ) = resolveOrQ (some (mkRat 1 100)) baseTrainer.learning_rate :=
  (@per_call_override_resolution baseTrainer
      { num_epochs := some 3, batch_size := some 8,
        learning_rate := some (mkRat 1 100) }
      [Effect.bodyFit 20 3 6 8 (mkRat 1 100),
       Effect.headFit 3 8 (mkRat 1 100) none none none]
      baseTrainer rfl rfl).2.1
    3 8 (mkRat 1 100) none none none (by decide)

end SetFitVerif

namespace SetFitVerif

/-- C5: for every body fit a `train()` call performs, the warmup step
count passed to the body fit equals
`ceil(num_batches * resolved_epochs * warmup_proportion)`, where
`num_batches` is the per-epoch batch count of the training dataloader
(as recorded in the effect) and the epoch factor is the resolved number
of epochs. -/
theorem warmup_schedule {t : SetFitTrainer} {ov : TrainOverrides}
    {effs : List Effect} {t2 : SetFitTrainer} {nb : ℕ} {ep ws bsx : ℤ} {lrx : ℚ}
    (hb : t.hp_search_backend = none)
    (h : t.train ov = ⟨effs, .ok t2⟩)
    (hm : Effect.bodyFit nb ep ws bsx lrx ∈ effs) :
    ep = resolveOr ov.num_epochs t.num_epochs ∧
    ws = Int.ceil ((((nb : ℤ) * resolveOr ov.num_epochs t.num_epochs : ℤ) : ℚ)
          * t.warmup_proportion) := by
  obtain ⟨t1, warn, xs, ys, xt, yt, m2, phase, hpre, hrun, heffs, ht2⟩ := train_ok_decomp h
  obtain ⟨hdisj, -, -⟩ := trainPrelude_ok_inv hb hpre
  subst heffs
  have hne : t1.num_epochs = t.num_epochs := by
    rcases hdisj with ⟨-, h1, -⟩ | ⟨-, h1, -⟩ <;> subst h1 <;> rfl
  have hwp : t1.warmup_proportion = t.warmup_proportion := by
    rcases hdisj with ⟨-, h1, -⟩ | ⟨-, h1, -⟩ <;> subst h1 <;> rfl
  have hwarnfit : ∀ e ∈ warn, isBodyFit e = false := by
    rcases hdisj with ⟨-, -, hw⟩ | ⟨-, -, hw⟩ <;> subst hw <;> simp [isBodyFit]
  rcases List.mem_append.mp hm with hw | hp
  · have hfalse := hwarnfit _ hw
    simp [isBodyFit] at hfalse
  · have hbp := runPhases_bodyFit_mem hrun hp
    obtain ⟨nb2, hbe, -, -⟩ := bodyPhase_ok_shape hbp
    simp only [Effect.bodyFit.injEq] at hbe
    obtain ⟨hnb, hep, hws, -, -⟩ := hbe
    constructor
    · rw [hep, hne]
    · rw [hws, warmupSteps_eq_ceil, ← hnb, hne, hwp]

set_option maxRecDepth 16000 in
/-- Witness for C5 at `baseTrainer`: the body fit with 10 batches per
epoch and 5 resolved epochs receives `ceil(50 * 1/10) = 5` warmup
steps. -/
theorem warmup_schedule_witness :
    (5 : ℤ) = resolveOr none baseTrainer.num_epochs ∧
    (5 : ℤ) = Int.ceil (((((10 : ℕ) : ℤ) * resolveOr none baseTrainer.num_epochs : ℤ) : ℚ)
          * baseTrainer.warmup_proportion) :=
  @warmup_schedule baseTrainer {}
    [Effect.bodyFit 10 5 5 16 (mkRat 1 50000),
     Effect.headFit 5 16 (mkRat 1 50000) none none none]
    baseTrainer 10 5 5 16 (mkRat 1 50000) rfl rfl (by decide)

end SetFitVerif

namespace SetFitVerif

/-- C3: a multi-split container (`DatasetDict`) whose only split-name
set is `{"train"}`, passed as the training dataset with no column
mapping configured, makes `train()` raise the distinguished multi-split
error naming the available split names — with an empty effect list,
i.e. before any pair generation or model fitting. -/
theorem multi_split_dataset_error {t : SetFitTrainer} {ov : TrainOverrides}
    {d : HFDataset}
    (hb : t.hp_search_backend = none)
    (htd : t.train_dataset = some d)
    (hcm : t.column_mapping = none)
    (hcols : d.columnNames.dedup = ["train"])
    (hdict : d.is_dataset_dict = true) :
    t.train ov = ⟨[], .error (.multiSplitTrainOnly ["train"])⟩ := by
  have hmem : ∀ x, x ∈ d.columnNames ↔ x = "train" := by
    intro x
    rw [← List.mem_dedup, hcols]
    simp
  have htext : ("text" : String) ∉ d.columnNames := fun hx =>
    absurd ((hmem _).mp hx) (by decide)
  have hval : validateColumnMapping t.column_mapping d
      = .error (.multiSplitTrainOnly ["train"]) := by
    rw [hcm]
    unfold validateColumnMapping
    have hnotsub : (["text", "label"].all (fun c => d.columnNames.contains c)) = false := by
      simp only [List.all_cons, List.all_nil, Bool.and_true, Bool.and_eq_false_iff]
      left
      simpa using htext
    simp only [hnotsub, hcols, hdict, Bool.not_false, if_true, Bool.and_self, if_pos]
    simp
  have hpre : trainPrelude t ov = .error ([], .multiSplitTrainOnly ["train"]) := by
    unfold trainPrelude
    rw [trialSetup_backend_none hb]
    dsimp only
    rw [htd]
    dsimp only
    rw [hval]
  unfold SetFitTrainer.train
  rw [hpre]

/-- Witness for C3: a `DatasetDict` with single split `train`. -/
theorem multi_split_dataset_error_witness :
    SetFitTrainer.train
        { baseTrainer with train_dataset := some ⟨[("train", [])], true⟩ } {}
      = ⟨[], .error (.multiSplitTrainOnly ["train"])⟩ :=
  multi_split_dataset_error rfl rfl rfl (by decide) rfl

end SetFitVerif

namespace SetFitVerif

/-- C8: a trainer whose `eval_dataset` is `None` fails every `train()`
call with a valid training dataset before any model fitting, because
`train()` unconditionally indexes the evaluation dataset (line 394) —
the NoneType-subscript `TypeError`, with an empty effect list.  A
non-`None` `eval_dataset` is thus an undeclared precondition of
`train()` even though the constructor accepts it as optional. -/
theorem none_eval_dataset_error {t : SetFitTrainer} {ov : TrainOverrides}
    {td : HFDataset} {xs ys : List PyVal}
    (hb : t.hp_search_backend = none)
    (hed : t.eval_dataset = none)
    (htd : t.train_dataset = some td)
    (hval : validateColumnMapping t.column_mapping td = .ok ())
    (hread : readColumns (mappedTrainDataset t.column_mapping td) = .ok (xs, ys)) :
    t.train ov = ⟨[], .error .noneNotSubscriptable⟩ := by
  have hpre : trainPrelude t ov = .error ([], .noneNotSubscriptable) := by
    unfold trainPrelude
    rw [trialSetup_backend_none hb]
    dsimp only
    rw [htd]
    dsimp only
    rw [hval]
    dsimp only
    rw [hread]
    dsimp only
    rw [hed]
  unfold SetFitTrainer.train
  rw [hpre]

/-- Witness for C8: `baseTrainer` with its evaluation dataset removed. -/
theorem none_eval_dataset_error_witness :
    SetFitTrainer.train { baseTrainer with eval_dataset := none } {}
      = ⟨[], .error .noneNotSubscriptable⟩ :=
  @none_eval_dataset_error { baseTrainer with eval_dataset := none } {}
    sampleDataset
    [.pyStr "a", .pyStr "b", .pyStr "c", .pyStr "d"]
    [.pyInt 0, .pyInt 0, .pyInt 1, .pyInt 1]
    rfl rfl rfl rfl rfl

end SetFitVerif

namespace SetFitVerif

/-- C9: with a column mapping configured, `train()` applies the mapping
only to the training dataset and reads the evaluation texts/labels from
the unmapped `eval_dataset` under the literal names `text`/`label`;
hence for an evaluation dataset whose columns exist only under the
pre-mapping names, `train()` raises `KeyError` (with no effect having
happened) while `evaluate()` on the same dataset succeeds, because
`evaluate()` does apply the mapping. -/
theorem eval_mapping_asymmetry {t : SetFitTrainer} {ov : TrainOverrides}
    {cm : List (String × String)} {td ed : HFDataset}
    {xs ys xt yt : List PyVal} {s : String} {m : SetFitModel}
    (hb : t.hp_search_backend = none)
    (hcm : t.column_mapping = some cm)
    (htd : t.train_dataset = some td)
    (hed : t.eval_dataset = some ed)
    (hvaltd : validateColumnMapping (some cm) td = .ok ())
    (hreadtd : readColumns (mappedTrainDataset (some cm) td) = .ok (xs, ys))
    (hnotext : getColumn ed "text" = none)
    (hvaled : validateColumnMapping (some cm) ed = .ok ())
    (hreaded : readColumns (applyColumnMapping ed cm) = .ok (xt, yt))
    (hmetric : t.metric = .name s)
    (hmodel : t.model = some m) :
    t.train ov = ⟨[], .error (.keyError "text")⟩ ∧
    t.evaluate none = .ok [(s, 1)] := by
  constructor
  · have hrede : readColumns ed = .error (.keyError "text") := by
      unfold readColumns
      rw [hnotext]
    have hpre : trainPrelude t ov = .error ([], .keyError "text") := by
      unfold trainPrelude
      rw [trialSetup_backend_none hb]
      dsimp only
      rw [htd]
      dsimp only
      rw [hcm, hvaltd]
      dsimp only
      rw [hreadtd]
      dsimp only
      rw [hed]
      dsimp only
      rw [hrede]
    unfold SetFitTrainer.train
    rw [hpre]
  · unfold SetFitTrainer.evaluate
    dsimp only
    rw [hed]
    dsimp only
    rw [hcm]
    dsimp only
    rw [hvaled]
    dsimp only
    rw [hreaded]
    dsimp only
    rw [hmodel]
    dsimp only
    rw [hmetric]

/-- The column mapping used by the C9 witness. -/
def preMapColumnMapping : List (String × String) :=
  [("sentence", "text"), ("category", "label")]

/-- A dataset carrying its text/label columns only under the
pre-mapping names. -/
def preMapDataset : HFDataset :=
  { columns := [("sentence", [.pyStr "a", .pyStr "b"]),
                ("category", [.pyInt 0, .pyInt 1])],
    is_dataset_dict := false }

/-- `baseTrainer` with a column mapping and pre-mapping-named datasets. -/
def mappedTrainer : SetFitTrainer :=
  { baseTrainer with
    column_mapping := some preMapColumnMapping,
    train_dataset := some preMapDataset,
    eval_dataset := some preMapDataset }

/-- Witness for C9 at `mappedTrainer`. -/
theorem eval_mapping_asymmetry_witness :
    mappedTrainer.train {} = ⟨[], .error (.keyError "text")⟩ ∧
    mappedTrainer.evaluate none = .ok [("accuracy", 1)] :=
  @eval_mapping_asymmetry mappedTrainer {} preMapColumnMapping preMapDataset
    preMapDataset [.pyStr "a", .pyStr "b"] [.pyInt 0, .pyInt 1]
    [.pyStr "a", .pyStr "b"] [.pyInt 0, .pyInt 1] "accuracy" classicalHeadModel
    rfl rfl rfl rfl rfl rfl rfl rfl rfl rfl rfl

end SetFitVerif

namespace SetFitVerif

/-- C4: `apply_hyperparameters` with `{"learning_rate": "0.01"}` coerces
the string through the existing float field's type and stores the float
`0.01`; a key with no matching trainer attribute, when `model_init`
takes zero arguments, logs exactly one warning and is otherwise ignored
— the trainer state is unchanged. -/
theorem apply_hyperparameters_coercion :
    (∀ (t : SetFitTrainer) (fm : Bool),
        (applyHyperparameters t [("learning_rate", .pyStr "0.01")] fm).trainer.learning_rate
          = 1/100) ∧
    (∀ (t : SetFitTrainer) (k : String) (v : PyVal) (mi : ModelInit),
        t.model_init = some mi → mi.arity = 0 → attrNames.contains k = false →
        (applyHyperparameters t [(k, v)] false).trainer = t ∧
        (applyHyperparameters t [(k, v)] false).warnings = [k]) := by
  have hreinit : ∀ (r : ApplyResult) (fm : Bool),
      (applyModelReinit r fm).trainer.learning_rate = r.trainer.learning_rate ∧
      (applyModelReinit r fm).warnings = r.warnings := by
    intro r fm
    unfold applyModelReinit
    split
    · exact ⟨rfl, rfl⟩
    split
    · exact ⟨rfl, rfl⟩
    split
    · split <;> exact ⟨rfl, rfl⟩
    · exact ⟨rfl, rfl⟩
  constructor
  · intro t fm
    unfold applyHyperparameters
    simp only [List.foldl_cons, List.foldl_nil]
    rw [show applyStep ⟨t, [], none⟩ ("learning_rate", .pyStr "0.01")
        = ⟨{ t with learning_rate := mkRat 1 100 }, [], none⟩ from rfl]
    rw [(hreinit _ fm).1]
    show (mkRat 1 100 : ℚ) = 1/100
    rw [Rat.mkRat_eq_div]
    norm_num
  · intro t k v mi hmi harity hk
    have hstep : applyStep ⟨t, [], none⟩ (k, v) = ⟨t, [k], none⟩ := by
      unfold applyStep
      simp only [hk, Bool.false_eq_true, if_false]
      show (match t.model_init with
        | none => _
        | some mi => _) = _
      rw [hmi]
      simp [harity]
    have hreinit2 : applyModelReinit ⟨t, [k], none⟩ false
        = { trainer := t, warnings := [k],
            err := some (.typeError "model_init takes 0 positional arguments") } := by
      unfold applyModelReinit
      show (match t.model_init with
        | none => _
        | some mi => _) = _
      rw [hmi]
      simp [harity]
    unfold applyHyperparameters
    simp only [List.foldl_cons, List.foldl_nil]
    rw [hstep, hreinit2]
    exact ⟨rfl, rfl⟩

end SetFitVerif

namespace SetFitVerif

/-- A trainer whose `model_init` takes zero arguments. -/
def zeroArityInitTrainer : SetFitTrainer :=
  { baseTrainer with model_init := some ⟨0, some classicalHeadModel⟩ }

/-- Witness for C4: string learning-rate coerced on `baseTrainer`; an
unmatched key on a zero-arity `model_init` trainer warns and leaves the
trainer unchanged. -/
theorem apply_hyperparameters_coercion_witness :
    (applyHyperparameters baseTrainer [("learning_rate", .pyStr "0.01")]
        false).trainer.learning_rate = 1/100 ∧
    ((applyHyperparameters zeroArityInitTrainer [("nonexistent_key", .pyInt 7)]
        false).trainer = zeroArityInitTrainer ∧
      (applyHyperparameters zeroArityInitTrainer [("nonexistent_key", .pyInt 7)]
        false).warnings = ["nonexistent_key"]) :=
  ⟨apply_hyperparameters_coercion.1 baseTrainer false,
   apply_hyperparameters_coercion.2 zeroArityInitTrainer "nonexistent_key"
     (.pyInt 7) ⟨0, some classicalHeadModel⟩ rfl rfl (by decide)⟩

end SetFitVerif

namespace SetFitVerif

/-- C6: for a triplet-family (or supervised-contrastive) loss, a body
fit performed by `train()` uses as effective batch size the minimum of
the resolved `batch_size` and the label-grouped sampler's example count;
every batch the `drop_last` dataloader yields from the sampler stream
has exactly that size (a trailing partial batch is dropped, never
padded), so the examples consumed per epoch are a multiple of the
effective batch size; and no group the sampler emits contains more
same-label examples of any label than that label's occurrence count in
the dataset. -/
theorem triplet_batching {t : SetFitTrainer} {ov : TrainOverrides}
    {effs : List Effect} {t2 : SetFitTrainer} {td : HFDataset}
    {xs ys : List PyVal} {nb : ℕ} {ep ws bsx : ℤ} {lrx : ℚ}
    (hb : t.hp_search_backend = none)
    (htrip : isTripletFamily t.loss_class = true)
    (htd : t.train_dataset = some td)
    (hread : readColumns (mappedTrainDataset t.column_mapping td) = .ok (xs, ys))
    (h : t.train ov = ⟨effs, .ok t2⟩)
    (hm : Effect.bodyFit nb ep ws bsx lrx ∈ effs) :
    bsx = min (resolveOr ov.batch_size t.batch_size)
        ((sentenceLabelLen (xs.zip ys) t.samples_per_label.toNat : ℕ) : ℤ) ∧
    (∀ g ∈ samplerGroups (xs.zip ys) t.samples_per_label.toNat, ∀ L,
        countLabel g L ≤ countLabel (xs.zip ys) L) ∧
    (∀ b ∈ chunkExact bsx.toNat (samplerStream (xs.zip ys) t.samples_per_label.toNat),
        b.length = bsx.toNat) ∧
    (chunkExact bsx.toNat (samplerStream (xs.zip ys) t.samples_per_label.toNat)).flatten.length
      = (chunkExact bsx.toNat (samplerStream (xs.zip ys) t.samples_per_label.toNat)).length
          * bsx.toNat := by
  obtain ⟨t1, warn, xs0, ys0, xt, yt, m2, phase, hpre, hrun, heffs, ht2⟩ := train_ok_decomp h
  obtain ⟨hdisj, -, td0, htd0, -, hread0⟩ := trainPrelude_ok_inv hb hpre
  have hlosssome : t.loss_class ≠ none := by
    intro hnone
    rw [hnone] at htrip
    simp [isTripletFamily] at htrip
  have ht1 : t1 = t ∧ warn = [] := by
    rcases hdisj with ⟨hn, -, -⟩ | ⟨-, h1, hw⟩
    · exact absurd hn hlosssome
    · exact ⟨h1, hw⟩
  obtain ⟨ht1eq, hwarn⟩ := ht1
  subst ht1eq
  rw [heffs, hwarn, List.nil_append] at hm
  rw [htd] at htd0
  obtain rfl := Option.some.inj htd0
  rw [hread] at hread0
  simp only [Except.ok.injEq, Prod.mk.injEq] at hread0
  obtain ⟨hxs, hys⟩ := hread0
  subst hxs
  subst hys
  have hbp := runPhases_bodyFit_mem hrun hm
  obtain ⟨nb2, hbe, hpos, hcase⟩ := bodyPhase_ok_shape hbp
  rcases hcase with ⟨-, hbsx, -⟩ | ⟨hfalse, -⟩
  · refine ⟨hbsx, ?_, ?_, ?_⟩
    · intro g hg L
      exact samplerGroups_count_le hg L
    · intro b hbmem
      exact chunkExact_mem_length hbmem
    · exact chunkExact_flatten_length _ _
  · rw [htrip] at hfalse
    exact absurd hfalse (by simp)

end SetFitVerif

namespace SetFitVerif

set_option maxRecDepth 16000 in
/-- Witness for C6 at `tripletTrainer` (four examples, two labels,
`samples_per_label = 2`): the sampler holds 4 examples, capping the
batch size from 16 to 4, and the drop-last batches consume a multiple
of 4 examples. -/
theorem triplet_batching_witness :
    (4 : ℤ) = min (resolveOr none tripletTrainer.batch_size)
        ((sentenceLabelLen
            ([PyVal.pyStr "a", PyVal.pyStr "b", PyVal.pyStr "c", PyVal.pyStr "d"].zip
              [PyVal.pyInt 0, PyVal.pyInt 0, PyVal.pyInt 1, PyVal.pyInt 1])
            tripletTrainer.samples_per_label.toNat : ℕ) : ℤ) ∧
    (chunkExact (4 : ℤ).toNat
        (samplerStream
          ([PyVal.pyStr "a", PyVal.pyStr "b", PyVal.pyStr "c", PyVal.pyStr "d"].zip
            [PyVal.pyInt 0, PyVal.pyInt 0, PyVal.pyInt 1, PyVal.pyInt 1])
          tripletTrainer.samples_per_label.toNat)).flatten.length
      = (chunkExact (4 : ℤ).toNat
          (samplerStream
            ([PyVal.pyStr "a", PyVal.pyStr "b", PyVal.pyStr "c", PyVal.pyStr "d"].zip
              [PyVal.pyInt 0, PyVal.pyInt 0, PyVal.pyInt 1, PyVal.pyInt 1])
            tripletTrainer.samples_per_label.toNat)).length * (4 : ℤ).toNat :=
  ⟨(@triplet_batching tripletTrainer {}
      [Effect.bodyFit 1 5 1 4 (mkRat 1 50000),
       Effect.headFit 5 4 (mkRat 1 50000) none none none]
      tripletTrainer sampleDataset
      [PyVal.pyStr "a", PyVal.pyStr "b", PyVal.pyStr "c", PyVal.pyStr "d"]
      [PyVal.pyInt 0, PyVal.pyInt 0, PyVal.pyInt 1, PyVal.pyInt 1]
      1 5 1 4 (mkRat 1 50000)
      rfl rfl rfl rfl rfl (by decide)).1,
   (@triplet_batching tripletTrainer {}
      [Effect.bodyFit 1 5 1 4 (mkRat 1 50000),
       Effect.headFit 5 4 (mkRat 1 50000) none none none]
      tripletTrainer sampleDataset
      [PyVal.pyStr "a", PyVal.pyStr "b", PyVal.pyStr "c", PyVal.pyStr "d"]
      [PyVal.pyInt 0, PyVal.pyInt 0, PyVal.pyInt 1, PyVal.pyInt 1]
      1 5 1 4 (mkRat 1 50000)
      rfl rfl rfl rfl rfl (by decide)).2.2.2⟩

end SetFitVerif
